import Mathlib

/-!
Verification development for `acvp.py` (ASCII-CLI-Video-Python).

The file shallowly embeds the real-time frame-pacing loop of
`video_to_ascii_cli` (src/acvp.py, lines 159-211), the target-frame-delay
computation (lines 131-137), the per-frame resize (lines 170-175), the
audio-preparation pipeline (lines 25-122 and 150-157), the resource
teardown (lines 178-192 and 219-228), and the `__main__` entry point
(lines 233-240).  Wall-clock times and durations are modelled as
rationals; the frame source is a list of frames, each carrying the
outcome of its conversion attempt.
-/

namespace Acvp

/-- Outcome of the conversion of one frame to ASCII (src/acvp.py 168-186):
`ok` = `AsciiArt.from_array` succeeds; `attrError` = `AttributeError`
raised, the fallback via a temporary PNG file is taken (the frame is still
displayed); `renderError` = any other exception, the frame is skipped. -/
inductive RenderOutcome
  | ok
  | attrError
  | renderError
deriving DecidableEq, Repr

/-- One decoded raster frame: its pixel dimensions and what happens when
the loop tries to convert it. -/
structure Frame where
  width : Nat
  height : Nat
  outcome : RenderOutcome
deriving DecidableEq, Repr

/-- src/acvp.py 134-137: `target_frame_delay = 1.0 / fps` when `fps > 0`,
else the 30-fps fallback `1.0 / 30`. -/
def targetFrameDelay (fps : ℚ) : ℚ :=
  if 0 < fps then 1 / fps else 1 / 30

/-- src/acvp.py 170-175: frames wider than 640 pixels are downscaled by
`scale = 640 / width`, both dimensions multiplied by `scale` and truncated
with `int(...)` (floor, as both are nonnegative); narrower frames pass
through unchanged. -/
def resizeFrame (w h : Nat) : Nat × Nat :=
  if 640 < w then
    let scale : ℚ := 640 / (w : ℚ)
    ((⌊(w : ℚ) * scale⌋).toNat, (⌊(h : ℚ) * scale⌋).toNat)
  else
    (w, h)

/-- src/acvp.py 189: `ascii_image.to_terminal(columns=min(columns, 100))`. -/
def displayColumns (columns : Nat) : Nat := min columns 100

/-- src/acvp.py 9: `def video_to_ascii_cli(video_path, columns=80)`. -/
def defaultColumns : Nat := 80

/-- State of the pacing loop of src/acvp.py 159-211.  `startTime` and
`delay` are the `start_time` captured at line 143 and the session-fixed
`target_frame_delay`; `frames` is what is left of the source, `frameCount`
mirrors `frame_count`, `now` the wall clock, and `displayedCount` counts
frames actually written to the terminal. -/
structure LoopState where
  startTime : ℚ
  delay : ℚ
  frames : List Frame
  frameCount : Nat
  now : ℚ
  displayedCount : Nat
deriving DecidableEq, Repr

/-- src/acvp.py 199: `target_next_frame_time = start_time + (frame_count *
target_frame_delay)`. -/
def targetInstant (s : LoopState) (n : Nat) : ℚ :=
  s.startTime + (n : ℚ) * s.delay

/-- src/acvp.py 206: `frames_to_skip = int(abs(sleep_time) /
target_frame_delay)`; Python `int` truncates toward zero and the argument
is nonnegative, so this is a floor. -/
def framesToSkip (sleepTime delay : ℚ) : Nat :=
  (⌊|sleepTime| / delay⌋).toNat

/-- src/acvp.py 202: `sleep_time = target_next_frame_time - current_time`,
the slack left after displaying a frame and incrementing the counter,
where `d` is the wall-clock time consumed by the iteration up to the
`time.time()` call at line 200. -/
def sleepTimeAfter (d : ℚ) (s : LoopState) : ℚ :=
  targetInstant s (s.frameCount + 1) - (s.now + d)

/-- The catch-up loop of src/acvp.py 207-211: attempt `n` reads; each
successful read consumes one frame, a failed read (`not ret`) breaks out.
Returns the remaining source and the number of frames consumed. -/
def skipFrames : List Frame → Nat → List Frame × Nat
  | fs, 0 => (fs, 0)
  | [], _ + 1 => ([], 0)
  | _ :: fs, n + 1 =>
    let r := skipFrames fs n
    (r.1, r.2 + 1)

/-- One iteration of the while-loop of src/acvp.py 160-211, given the
wall-clock time `d` consumed between the read at line 163 and the
`time.time()` call at line 200.  `none` means the loop exits (the read at
line 163 returned no frame and line 166 breaks).  Otherwise: a frame whose
conversion raises an unexpected exception is counted and skipped (lines
183-186); a displayed frame is counted (line 194) and then the pacing
policy of lines 199-211 runs: sleep the positive slack, or when more than
one `target_frame_delay` behind, discard up to
`min(int(abs(sleep_time)/target_frame_delay), 3)` frames. -/
def step (d : ℚ) (s : LoopState) : Option LoopState :=
  match s.frames with
  | [] => none
  | f :: rest =>
    if f.outcome = RenderOutcome.renderError then
      some { s with frames := rest, frameCount := s.frameCount + 1, now := s.now + d }
    else
      let count := s.frameCount + 1
      let current := s.now + d
      let target := s.startTime + (count : ℚ) * s.delay
      let sleepTime := target - current
      if 0 < sleepTime then
        some { s with frames := rest, frameCount := count, now := target,
                      displayedCount := s.displayedCount + 1 }
      else if sleepTime < -s.delay then
        let toSkip := min (framesToSkip sleepTime s.delay) 3
        let r := skipFrames rest toSkip
        some { s with frames := r.1, frameCount := count + r.2, now := current,
                      displayedCount := s.displayedCount + 1 }
      else
        some { s with frames := rest, frameCount := count, now := current,
                      displayedCount := s.displayedCount + 1 }

/-- Run the loop with `fuel` remaining iterations allowed; `ds i` is the
processing duration of iteration `i`. -/
def runAux (ds : Nat → ℚ) : Nat → Nat → LoopState → LoopState
  | 0, _, s => s
  | fuel + 1, i, s =>
    match step (ds i) s with
    | none => s
    | some s' => runAux ds fuel (i + 1) s'

/-- Run the pacing loop to completion: every iteration that continues
consumes at least one source frame, so `s.frames.length` iterations
always reach the end of the stream. -/
def run (ds : Nat → ℚ) (s : LoopState) : LoopState :=
  runAux ds s.frames.length 0 s

/-! ## The entry point and its exit codes (src/acvp.py 125-128, 213-240) -/

/-- How a call of `video_to_ascii_cli` ends once the argument check has
passed. -/
inductive CliOutcome
  | openFailure
  | normalEnd
  | interruptedEnd
  | faultedEnd
deriving DecidableEq, Repr

/-- The events that decide how `video_to_ascii_cli` ends: whether
`cv2.VideoCapture` opens (line 126), whether a `KeyboardInterrupt`
arrives during the loop (line 213), whether an unexpected exception is
raised there (line 215). -/
structure CliEnv where
  openOk : Bool
  interrupted : Bool
  faulted : Bool
deriving DecidableEq, Repr

/-- src/acvp.py 125-128 and 213-218: an open failure is reported and the
function returns (line 128); an interrupt or an unexpected exception is
caught and the function falls through to `finally` and returns. -/
def cliOutcome (e : CliEnv) : CliOutcome :=
  if !e.openOk then CliOutcome.openFailure
  else if e.interrupted then CliOutcome.interruptedEnd
  else if e.faulted then CliOutcome.faultedEnd
  else CliOutcome.normalEnd

/-- src/acvp.py 233-240: `len(sys.argv) != 2` prints usage and calls
`sys.exit(1)`; otherwise `video_to_ascii_cli` is called and — because the
open failure path is a bare `return` (line 128) and both
`KeyboardInterrupt` (line 213) and any other loop exception (line 215)
are caught — it returns normally on every outcome, so the interpreter
exits with status 0. -/
def processExitCode (argvLen : Nat) (e : CliEnv) : Nat :=
  if argvLen ≠ 2 then 1
  else
    match cliOutcome e with
    | CliOutcome.openFailure => 0
    | CliOutcome.normalEnd => 0
    | CliOutcome.interruptedEnd => 0
    | CliOutcome.faultedEnd => 0

/-- src/acvp.py 234-239: the CLI accepts exactly one positional argument
(`sys.argv` = interpreter-visible program name plus the video path);
any other argument count is a usage error (`none`). -/
def parseArgs (argv : List String) : Option String :=
  if argv.length ≠ 2 then none else argv[1]?

/-! ## Session resources and teardown (src/acvp.py 179-192, 219-228) -/

/-- The resources owned by a session: the capture handle, the extracted
audio artifact in `Temp/`, and the fallback rendering artifact
`Temp/temp_frame.png`, together with counters of release/removal calls. -/
structure ResState where
  capOpen : Bool
  audioFile : Bool
  tempFrame : Bool
  capReleaseCount : Nat
  audioRemoveCount : Nat
deriving DecidableEq, Repr

/-- src/acvp.py 219-228, the `finally` block: `cap.release()` and removal
of the audio artifact when it exists; `temp_frame.png` is not touched
here. -/
def teardown (s : ResState) : ResState :=
  { s with capOpen := false,
           capReleaseCount := s.capReleaseCount + 1,
           audioFile := false,
           audioRemoveCount :=
             if s.audioFile then s.audioRemoveCount + 1 else s.audioRemoveCount }

/-- Progress of one fallback (`AttributeError`) iteration, src/acvp.py
179-192: `cv2.imwrite` creates `temp_frame.png` at line 181 and only line
192, after the frame has been displayed, removes it.  `duringRender` is
the state while lines 182-191 run (where an asynchronous
`KeyboardInterrupt` or a fault can land); `completed` is the state after
line 192. -/
inductive FallbackStage
  | duringRender
  | completed
deriving DecidableEq, Repr

/-- The session's resource state at the given stage of a fallback
iteration. -/
def fallbackIter (p : FallbackStage) (s : ResState) : ResState :=
  match p with
  | FallbackStage.duringRender => { s with tempFrame := true }
  | FallbackStage.completed => { s with tempFrame := false }

/-- An exit (end of stream, interrupt or fault) that lands at stage `p`
of a fallback iteration runs the `finally` teardown from that stage's
resource state. -/
def exitFromStage (p : FallbackStage) (s : ResState) : ResState :=
  teardown (fallbackIter p s)

/-! ## The audio sidecar (src/acvp.py 25-122, 150-157) -/

/-- Which artifact the extraction produced: the MP3 of line 55 or the WAV
fallback of line 68. -/
inductive AudioKind
  | mp3
  | wav
deriving DecidableEq, Repr

/-- The events that decide the audio stage: whether `VideoFileClip` loads
(line 27), whether the clip has an audio track (line 32), whether the MP3
extraction succeeds (line 55), whether the WAV fallback succeeds (line
68), whether the extracted file exists on disk (line 82), its size (line
83), whether its first byte can be read (lines 87-89), and whether
`playsound` starts (line 154). -/
structure AudioEnv where
  clipLoadOk : Bool
  hasAudio : Bool
  mp3Ok : Bool
  wavOk : Bool
  fileExists : Bool
  fileSize : Nat
  readable : Bool
  playOk : Bool
deriving DecidableEq, Repr

/-- src/acvp.py 53-73: try the MP3 extraction; on failure fall back to
WAV; if both fail `audio_path` is `None`. -/
def extractAudio (e : AudioEnv) : Option AudioKind :=
  if e.mp3Ok then some AudioKind.mp3
  else if e.wavOk then some AudioKind.wav
  else none

/-- src/acvp.py 25-122: the whole audio-preparation stage.  A clip-load
failure (line 114) or a missing audio track (line 111) yields no
artifact; after extraction, lines 82-110 verify the file exists, is
nonempty and is readable, resetting `audio_path` to `None` on any
failure. -/
def prepareAudio (e : AudioEnv) : Option AudioKind :=
  if !e.clipLoadOk then none
  else if !e.hasAudio then none
  else
    match extractAudio e with
    | none => none
    | some k =>
      if e.fileExists then
        if 0 < e.fileSize then
          if e.readable then some k else none
        else none
      else none

/-- What the session has done by the time the render loop would start. -/
structure SessionStart where
  audioPath : Option AudioKind
  audioStarted : Bool
  loopEntered : Bool
deriving DecidableEq, Repr

/-- src/acvp.py 25-160: audio preparation runs first; then the capture is
opened (125-128) — on failure the function returns before the loop; then
playback is attempted only when an artifact exists (150-157, its failure
caught at line 156), and the loop at line 159-160 is reached
unconditionally. -/
def startSession (e : AudioEnv) (openOk : Bool) : SessionStart :=
  let ap := prepareAudio e
  if openOk then
    { audioPath := ap, audioStarted := ap.isSome && e.playOk, loopEntered := true }
  else
    { audioPath := ap, audioStarted := false, loopEntered := false }

/-! ## Concrete witness inputs -/

/-- A session that has fallen 9 frames behind schedule: 6 source frames,
delay 1, and an iteration that took 10 time units. -/
def laggedSource : LoopState :=
  { startTime := 0, delay := 1,
    frames := [⟨1, 1, .ok⟩, ⟨2, 2, .ok⟩, ⟨3, 3, .ok⟩, ⟨4, 4, .ok⟩, ⟨5, 5, .ok⟩, ⟨6, 6, .ok⟩],
    frameCount := 0, now := 0, displayedCount := 0 }

/-- A 3-frame source whose middle frame fails to convert. -/
def mixedSource : LoopState :=
  { startTime := 0, delay := 1,
    frames := [⟨1, 1, .ok⟩, ⟨2, 2, .renderError⟩, ⟨3, 3, .ok⟩],
    frameCount := 0, now := 0, displayedCount := 0 }

/-- A one-frame source whose iteration finishes half a delay early. -/
def earlySource : LoopState :=
  { startTime := 0, delay := 1, frames := [⟨1, 1, .ok⟩],
    frameCount := 0, now := 0, displayedCount := 0 }

/-- A one-frame source whose iteration finishes exactly on schedule. -/
def steadySource : LoopState :=
  { startTime := 0, delay := 1, frames := [⟨1, 1, .ok⟩],
    frameCount := 0, now := 0, displayedCount := 0 }

/-- A 2-frame source whose first frame fails to convert. -/
def failingSource : LoopState :=
  { startTime := 0, delay := 1,
    frames := [⟨1, 1, .renderError⟩, ⟨2, 2, .ok⟩],
    frameCount := 0, now := 0, displayedCount := 0 }

/-- A 2-frame source played with no audio available. -/
def silentSource : LoopState :=
  { startTime := 0, delay := 1,
    frames := [⟨1, 1, .ok⟩, ⟨2, 2, .ok⟩],
    frameCount := 0, now := 0, displayedCount := 0 }

/-- An audio environment in which the clip loads and has an audio track
but both extraction attempts fail and playback would fail too. -/
def brokenAudio : AudioEnv :=
  { clipLoadOk := true, hasAudio := true, mp3Ok := false, wavOk := false,
    fileExists := false, fileSize := 0, readable := false, playOk := false }

end Acvp

namespace Acvp

-- sanity checks on concrete inputs
example : targetFrameDelay 25 = 1 / 25 := by norm_num [targetFrameDelay]
example : targetFrameDelay 0 = 1 / 30 := by norm_num [targetFrameDelay]
example : skipFrames [⟨1, 1, .ok⟩, ⟨1, 1, .ok⟩] 3 = ([], 2) := by decide

/-- The catch-up loop consumes exactly `min n fs.length` frames and leaves
`fs.drop n`. -/
theorem skipFrames_eq : ∀ (fs : List Frame) (n : Nat),
    skipFrames fs n = (fs.drop n, min n fs.length)
  | _, 0 => by simp [skipFrames]
  | [], _ + 1 => by simp [skipFrames]
  | f :: fs, n + 1 => by
    simp [skipFrames, skipFrames_eq fs n, Nat.succ_min_succ]

/-! ## Branch lemmas for `step` -/

theorem step_eq_none {d : ℚ} {s : LoopState} (h : s.frames = []) :
    step d s = none := by
  simp [step, h]

theorem step_renderError {d : ℚ} {s : LoopState} {f : Frame} {rest : List Frame}
    (hf : s.frames = f :: rest) (ho : f.outcome = RenderOutcome.renderError) :
    step d s =
      some { s with frames := rest, frameCount := s.frameCount + 1, now := s.now + d } := by
  simp [step, hf, ho]

theorem step_sleep {d : ℚ} {s : LoopState} {f : Frame} {rest : List Frame}
    (hf : s.frames = f :: rest) (ho : f.outcome ≠ RenderOutcome.renderError)
    (h : 0 < sleepTimeAfter d s) :
    step d s =
      some { s with frames := rest, frameCount := s.frameCount + 1,
                    now := targetInstant s (s.frameCount + 1),
                    displayedCount := s.displayedCount + 1 } := by
  simp only [sleepTimeAfter, targetInstant, sub_pos] at h
  simp only [step, hf, if_neg ho, targetInstant]
  rw [if_pos (sub_pos.mpr h)]

theorem step_skip {d : ℚ} {s : LoopState} {f : Frame} {rest : List Frame}
    (hf : s.frames = f :: rest) (ho : f.outcome ≠ RenderOutcome.renderError)
    (h1 : ¬ 0 < sleepTimeAfter d s)
    (h : sleepTimeAfter d s < -s.delay) :
    step d s =
      some { s with
              frames := rest.drop (min (framesToSkip (sleepTimeAfter d s) s.delay) 3),
              frameCount := s.frameCount + 1 +
                min (min (framesToSkip (sleepTimeAfter d s) s.delay) 3) rest.length,
              now := s.now + d,
              displayedCount := s.displayedCount + 1 } := by
  simp only [sleepTimeAfter, targetInstant] at h1 h ⊢
  simp only [step, hf, if_neg ho]
  rw [if_neg h1, if_pos h, skipFrames_eq]

theorem step_noSleep {d : ℚ} {s : LoopState} {f : Frame} {rest : List Frame}
    (hf : s.frames = f :: rest) (ho : f.outcome ≠ RenderOutcome.renderError)
    (h1 : ¬ 0 < sleepTimeAfter d s)
    (h2 : ¬ sleepTimeAfter d s < -s.delay) :
    step d s =
      some { s with frames := rest, frameCount := s.frameCount + 1, now := s.now + d,
                    displayedCount := s.displayedCount + 1 } := by
  simp only [sleepTimeAfter, targetInstant] at h1 h2
  simp only [step, hf, if_neg ho]
  rw [if_neg h1, if_neg h2]

/-! ## Invariants of the loop -/

/-- The loop only ends when the read of line 163 returns no frame. -/
theorem step_none_frames {d : ℚ} {s : LoopState} (h : step d s = none) :
    s.frames = [] := by
  rcases hf : s.frames with _ | ⟨f, rest⟩
  · rfl
  · by_cases ho : f.outcome = RenderOutcome.renderError
    · rw [step_renderError hf ho] at h
      cases h
    · by_cases h1 : 0 < sleepTimeAfter d s
      · rw [step_sleep hf ho h1] at h
        cases h
      · by_cases h2 : sleepTimeAfter d s < -s.delay
        · rw [step_skip hf ho h1 h2] at h
          cases h
        · rw [step_noSleep hf ho h1 h2] at h
          cases h

/-- Every continuing iteration conserves `frameCount + frames.length` (the
counter grows by exactly the number of frames consumed), never decreases
`frameCount`, consumes at least one frame, and leaves the session-fixed
`startTime` and `delay` untouched. -/
theorem step_some_spec {d : ℚ} {s s' : LoopState} (h : step d s = some s') :
    s'.frameCount + s'.frames.length = s.frameCount + s.frames.length ∧
    s.frameCount ≤ s'.frameCount ∧
    s'.frames.length < s.frames.length ∧
    s'.delay = s.delay ∧ s'.startTime = s.startTime := by
  rcases hf : s.frames with _ | ⟨f, rest⟩
  · rw [step_eq_none hf] at h
    cases h
  · by_cases ho : f.outcome = RenderOutcome.renderError
    · rw [step_renderError hf ho] at h
      injection h with h
      subst h
      simp [hf]
      omega
    · by_cases h1 : 0 < sleepTimeAfter d s
      · rw [step_sleep hf ho h1] at h
        injection h with h
        subst h
        simp [hf]
        omega
      · by_cases h2 : sleepTimeAfter d s < -s.delay
        · rw [step_skip hf ho h1 h2] at h
          injection h with h
          subst h
          simp [hf]
          omega
        · rw [step_noSleep hf ho h1 h2] at h
          injection h with h
          subst h
          simp [hf]
          omega

/-- Running the loop conserves `frameCount + frames.length`, never
decreases `frameCount`, keeps `startTime` and `delay` fixed, and drains
the source whenever the fuel covers the remaining frames. -/
theorem runAux_spec (ds : Nat → ℚ) : ∀ (fuel i : Nat) (s : LoopState),
    (runAux ds fuel i s).frameCount + (runAux ds fuel i s).frames.length
        = s.frameCount + s.frames.length ∧
    s.frameCount ≤ (runAux ds fuel i s).frameCount ∧
    (runAux ds fuel i s).delay = s.delay ∧
    (runAux ds fuel i s).startTime = s.startTime ∧
    (s.frames.length ≤ fuel → (runAux ds fuel i s).frames = []) := by
  intro fuel
  induction fuel with
  | zero =>
    intro i s
    refine ⟨rfl, le_refl _, rfl, rfl, ?_⟩
    intro h
    exact List.eq_nil_of_length_eq_zero (Nat.le_zero.mp h)
  | succ fuel ih =>
    intro i s
    rcases hstep : step (ds i) s with _ | s'
    · have hnil := step_none_frames hstep
      simp only [runAux, hstep]
      simp [hnil]
    · obtain ⟨hc, hm, hl, hd, hs⟩ := step_some_spec hstep
      obtain ⟨ihc, ihm, ihd, ihs, ihnil⟩ := ih (i + 1) s'
      simp only [runAux, hstep]
      refine ⟨by omega, by omega, by rw [ihd, hd], by rw [ihs, hs], ?_⟩
      intro h
      exact ihnil (by omega)

/-- `run` drains the whole source: the loop exits only at end of stream. -/
theorem run_frames_nil (ds : Nat → ℚ) (s : LoopState) : (run ds s).frames = [] :=
  (runAux_spec ds s.frames.length 0 s).2.2.2.2 (le_refl _)

/-- After `run`, the counter has grown by exactly the number of frames the
source held. -/
theorem run_frameCount (ds : Nat → ℚ) (s : LoopState) :
    (run ds s).frameCount = s.frameCount + s.frames.length := by
  have h := (runAux_spec ds s.frames.length 0 s).1
  have hnil := run_frames_nil ds s
  unfold run at hnil ⊢
  rw [hnil] at h
  simpa using h

/-! ## Claim theorems -/

/-- C1: in an iteration where, after displaying a frame and incrementing
the counter, the slack is below `-TargetFrameDelay` (src/acvp.py 205), the
engine discards further frames from the source without rendering them
(`displayedCount` grows only by the one displayed frame), incrementing
`frameCount` once per discarded frame; the number discarded,
`min (min (framesToSkip …) 3) rest.length`, is at most 3, at most the
computed backlog `⌊|sleep_time| / delay⌋`, and at most the number of
frames the source still holds (discarding stops early on exhaustion). -/
theorem catchup_skip_bounded (d : ℚ) (s : LoopState) (f : Frame) (rest : List Frame)
    (hf : s.frames = f :: rest) (ho : f.outcome ≠ RenderOutcome.renderError)
    (hd : 0 < s.delay) (hs : sleepTimeAfter d s < -s.delay) :
    step d s =
      some { s with
              frames := rest.drop (min (framesToSkip (sleepTimeAfter d s) s.delay) 3),
              frameCount := s.frameCount + 1 +
                min (min (framesToSkip (sleepTimeAfter d s) s.delay) 3) rest.length,
              now := s.now + d,
              displayedCount := s.displayedCount + 1 } ∧
    min (min (framesToSkip (sleepTimeAfter d s) s.delay) 3) rest.length ≤ 3 ∧
    min (min (framesToSkip (sleepTimeAfter d s) s.delay) 3) rest.length ≤
      framesToSkip (sleepTimeAfter d s) s.delay ∧
    min (min (framesToSkip (sleepTimeAfter d s) s.delay) 3) rest.length ≤ rest.length := by
  have h1 : ¬ 0 < sleepTimeAfter d s := by
    intro hpos
    have : -s.delay < 0 := by linarith
    linarith
  exact ⟨step_skip hf ho h1 hs, by omega, by omega, by omega⟩

/-- Witness for C1: a 9-frame backlog with 5 frames left triggers exactly
3 skips, so the counter lands on 4 = 1 displayed + 3 discarded. -/
theorem catchup_skip_bounded_witness :
    step 10 laggedSource =
      some { startTime := 0, delay := 1, frames := [⟨5, 5, .ok⟩, ⟨6, 6, .ok⟩],
             frameCount := 4, now := laggedSource.now + 10, displayedCount := 1 } := by
  have h := catchup_skip_bounded 10 laggedSource ⟨1, 1, .ok⟩
    [⟨2, 2, .ok⟩, ⟨3, 3, .ok⟩, ⟨4, 4, .ok⟩, ⟨5, 5, .ok⟩, ⟨6, 6, .ok⟩]
    rfl (by decide) (by norm_num [laggedSource])
    (by norm_num [sleepTimeAfter, targetInstant, laggedSource])
  rw [h.1]
  norm_num [laggedSource, framesToSkip, sleepTimeAfter, targetInstant, Int.floor_ofNat]

/-- C2: `frameCount` counts exactly the reads that returned a frame: every
continuing iteration grows the counter by precisely the number of frames
it consumed (displayed, skipped after a render failure, or discarded
during catch-up) and never decreases it, and a full run starting at count
0 drains the source and ends with `frameCount` equal to the number of
frames the source yielded. -/
theorem frameCount_counts_consumed (ds : Nat → ℚ) (s : LoopState)
    (h0 : s.frameCount = 0) :
    ((run ds s).frames = [] ∧ (run ds s).frameCount = s.frames.length) ∧
    ∀ (d : ℚ) (u u' : LoopState), step d u = some u' →
      u.frameCount ≤ u'.frameCount ∧
      u'.frameCount + u'.frames.length = u.frameCount + u.frames.length := by
  refine ⟨⟨run_frames_nil ds s, ?_⟩, ?_⟩
  · rw [run_frameCount ds s, h0, Nat.zero_add]
  · intro d u u' h
    obtain ⟨hc, hm, _, _, _⟩ := step_some_spec h
    exact ⟨hm, hc⟩

/-- Witness for C2: the run consumes all 3 frames (one of them a render
failure) and ends with `frameCount = 3`. -/
theorem frameCount_counts_consumed_witness :
    (run (fun _ => 0) mixedSource).frames = [] ∧
    (run (fun _ => 0) mixedSource).frameCount = 3 := by
  have h := frameCount_counts_consumed (fun _ => 0) mixedSource rfl
  exact ⟨h.1.1, h.1.2⟩

/-- C3: if after incrementing the counter the current time is earlier than
`TargetInstant(frameCount)`, the iteration sleeps exactly the positive
slack — it resumes precisely at the target instant, never earlier, and
skips nothing; if the slack is nonpositive but within one
`TargetFrameDelay`, the iteration proceeds immediately: no sleep (the
clock stays at `s.now + d`) and no skip (the source loses only the
displayed frame). -/
theorem sleeps_until_target_instant (d : ℚ) (s : LoopState) (f : Frame) (rest : List Frame)
    (hf : s.frames = f :: rest) (ho : f.outcome ≠ RenderOutcome.renderError) :
    (0 < sleepTimeAfter d s →
      step d s = some { s with frames := rest, frameCount := s.frameCount + 1,
                               now := targetInstant s (s.frameCount + 1),
                               displayedCount := s.displayedCount + 1 } ∧
      s.now + d + sleepTimeAfter d s = targetInstant s (s.frameCount + 1)) ∧
    (-s.delay ≤ sleepTimeAfter d s → sleepTimeAfter d s ≤ 0 →
      step d s = some { s with frames := rest, frameCount := s.frameCount + 1,
                               now := s.now + d,
                               displayedCount := s.displayedCount + 1 }) := by
  constructor
  · intro h
    refine ⟨step_sleep hf ho h, ?_⟩
    simp only [sleepTimeAfter]
    ring
  · intro hge hle
    exact step_noSleep hf ho (not_lt.mpr hle) (not_lt.mpr hge)

/-- Witness for C3: finishing half a frame early sleeps up to the target
instant; finishing half a frame late (within one delay) neither sleeps
nor skips. -/
theorem sleeps_until_target_instant_witness :
    (step (1/2) earlySource =
        some { earlySource with
                 frames := [], frameCount := earlySource.frameCount + 1,
                 now := targetInstant earlySource (earlySource.frameCount + 1),
                 displayedCount := earlySource.displayedCount + 1 } ∧
      earlySource.now + 1/2 + sleepTimeAfter (1/2) earlySource =
        targetInstant earlySource (earlySource.frameCount + 1)) ∧
    step (3/2) earlySource =
      some { earlySource with
               frames := [], frameCount := earlySource.frameCount + 1,
               now := earlySource.now + 3/2,
               displayedCount := earlySource.displayedCount + 1 } := by
  constructor
  · exact (sleeps_until_target_instant (1/2) earlySource ⟨1, 1, .ok⟩ [] rfl (by decide)).1
      (by norm_num [sleepTimeAfter, targetInstant, earlySource])
  · exact (sleeps_until_target_instant (3/2) earlySource ⟨1, 1, .ok⟩ [] rfl (by decide)).2
      (by norm_num [sleepTimeAfter, targetInstant, earlySource])
      (by norm_num [sleepTimeAfter, targetInstant, earlySource])

/-- C4: `target_frame_delay` equals `1/fps` for a positive reported rate
and falls back to `1/30` for a nonpositive or unavailable one
(src/acvp.py 134-137), and no iteration of the loop ever changes the
session's `delay`: it is never recomputed during a session. -/
theorem targetFrameDelay_fixed (fps : ℚ) :
    (0 < fps → targetFrameDelay fps = 1 / fps) ∧
    (fps ≤ 0 → targetFrameDelay fps = 1 / 30) ∧
    ∀ (d : ℚ) (u u' : LoopState), step d u = some u' → u'.delay = u.delay := by
  refine ⟨fun h => if_pos h, fun h => if_neg (not_lt.mpr h), ?_⟩
  intro d u u' hst
  exact (step_some_spec hst).2.2.2.1

/-- Witness for C4: the delay of a 25-fps source, the fallback for an
unavailable rate, and a concrete iteration that leaves `delay` alone. -/
theorem targetFrameDelay_fixed_witness :
    targetFrameDelay 25 = 1 / 25 ∧
    targetFrameDelay 0 = 1 / 30 ∧
    ({ steadySource with
         frames := [], frameCount := steadySource.frameCount + 1,
         now := steadySource.now + 1,
         displayedCount := steadySource.displayedCount + 1 } : LoopState).delay
      = steadySource.delay := by
  refine ⟨(targetFrameDelay_fixed 25).1 (by norm_num),
          (targetFrameDelay_fixed 0).2.1 (by norm_num), ?_⟩
  refine (targetFrameDelay_fixed 25).2.2 1 steadySource _ ?_
  exact step_noSleep rfl (by decide)
    (by norm_num [sleepTimeAfter, targetInstant, steadySource])
    (by norm_num [sleepTimeAfter, targetInstant, steadySource])

/-- C5: a frame whose conversion fails with an unexpected exception does
not halt the loop (src/acvp.py 183-186): the counter is still incremented
for the failed frame, nothing is displayed (`displayedCount` unchanged),
and the loop continues positioned at the next frame, so the next read
still occurs. -/
theorem render_failure_recovered (d : ℚ) (s : LoopState) (f : Frame) (rest : List Frame)
    (hf : s.frames = f :: rest) (ho : f.outcome = RenderOutcome.renderError) :
    step d s =
      some { s with frames := rest, frameCount := s.frameCount + 1, now := s.now + d } ∧
    (step d s).isSome = true ∧
    ({ s with
         frames := rest, frameCount := s.frameCount + 1,
         now := s.now + d } : LoopState).displayedCount = s.displayedCount := by
  refine ⟨step_renderError hf ho, ?_, rfl⟩
  rw [step_renderError hf ho]
  rfl

/-- Witness for C5: the failing first frame is counted, not displayed, and
the loop goes on to the second frame. -/
theorem render_failure_recovered_witness :
    step 0 failingSource =
      some { failingSource with
               frames := [⟨2, 2, .ok⟩],
               frameCount := failingSource.frameCount + 1,
               now := failingSource.now + 0 } ∧
    (step 0 failingSource).isSome = true ∧
    ({ failingSource with
         frames := [⟨2, 2, .ok⟩],
         frameCount := failingSource.frameCount + 1,
         now := failingSource.now + 0 } : LoopState).displayedCount
      = failingSource.displayedCount :=
  render_failure_recovered 0 failingSource ⟨1, 1, .renderError⟩ [⟨2, 2, .ok⟩] rfl rfl

/-- Claim C6 counterexample: when the capture fails to open (no interrupt,
no fault), the outcome is the open failure, yet the process exit status is
0 — not non-zero as the claim states: `video_to_ascii_cli` merely prints
an error and returns at src/acvp.py 128, and `__main__` falls through to a
normal exit. -/
theorem open_failure_exit_code_zero :
    cliOutcome { openOk := false, interrupted := false, faulted := false }
      = CliOutcome.openFailure ∧
    processExitCode 2 { openOk := false, interrupted := false, faulted := false } = 0 := by
  decide

/-- Claim C6 (amended): the process exit status is 0 on normal
end-of-stream completion, on user interruption, and also on a failure to
open the source video (the failure is reported but not escalated); it is
non-zero (1) exactly on a usage error, i.e. a wrong argument count. -/
theorem exit_code_spec (argvLen : Nat) (e : CliEnv) :
    (argvLen ≠ 2 → processExitCode argvLen e = 1) ∧
    (argvLen = 2 → processExitCode argvLen e = 0) := by
  constructor
  · intro h
    simp [processExitCode, h]
  · intro h
    subst h
    simp only [processExitCode, ne_eq, not_true_eq_false, if_false]
    cases cliOutcome e <;> rfl

/-- Witness for C6 (amended): three arguments exit with status 1; a
normal two-argument run exits with status 0. -/
theorem exit_code_spec_witness :
    processExitCode 3 { openOk := true, interrupted := false, faulted := false } = 1 ∧
    processExitCode 2 { openOk := true, interrupted := false, faulted := false } = 0 :=
  ⟨(exit_code_spec 3 { openOk := true, interrupted := false, faulted := false }).1
      (by decide),
   (exit_code_spec 2 { openOk := true, interrupted := false, faulted := false }).2 rfl⟩

/-- Claim C7 counterexample: an exit (interrupt or fault) that lands
during a fallback render — after `cv2.imwrite` created `temp_frame.png`
at src/acvp.py 181 but before line 192 removes it — runs the `finally`
teardown, which releases the capture and removes the audio artifact but
leaves `temp_frame.png` on disk: a dangling temporary file after process
exit, contradicting the claim that every transient rendering artifact is
removed on every exit path. -/
theorem dangling_temp_frame :
    (exitFromStage FallbackStage.duringRender
      { capOpen := true, audioFile := true, tempFrame := false,
        capReleaseCount := 0, audioRemoveCount := 0 }).tempFrame = true ∧
    (exitFromStage FallbackStage.duringRender
      { capOpen := true, audioFile := true, tempFrame := false,
        capReleaseCount := 0, audioRemoveCount := 0 }).capOpen = false := by
  decide

/-- Claim C7 (amended): on every exit path of the loop the capture handle
is released exactly once and the extracted audio artifact is removed
exactly once (when it existed); the transient single-frame artifact is
removed only by the per-frame cleanup of a completed fallback iteration
(src/acvp.py 191-192) — an exit that lands mid-render leaves it behind,
because the teardown itself never removes it. -/
theorem teardown_spec (p : FallbackStage) (s : ResState) :
    (exitFromStage p s).capOpen = false ∧
    (exitFromStage p s).capReleaseCount = s.capReleaseCount + 1 ∧
    (exitFromStage p s).audioFile = false ∧
    (s.audioFile = true → (exitFromStage p s).audioRemoveCount = s.audioRemoveCount + 1) ∧
    (s.audioFile = false → (exitFromStage p s).audioRemoveCount = s.audioRemoveCount) ∧
    (p = FallbackStage.completed → (exitFromStage p s).tempFrame = false) ∧
    (p = FallbackStage.duringRender → (exitFromStage p s).tempFrame = true) := by
  cases p
  · refine ⟨rfl, rfl, rfl, fun h => ?_, fun h => ?_, fun h => absurd h (by decide), fun _ => rfl⟩
    · simp [exitFromStage, fallbackIter, teardown, h]
    · simp [exitFromStage, fallbackIter, teardown, h]
  · refine ⟨rfl, rfl, rfl, fun h => ?_, fun h => ?_, fun _ => rfl, fun h => absurd h (by decide)⟩
    · simp [exitFromStage, fallbackIter, teardown, h]
    · simp [exitFromStage, fallbackIter, teardown, h]

/-- Witness for C7 (amended): a completed fallback iteration followed by
teardown leaves no temp frame, releases the capture once and removes the
audio artifact once. -/
theorem teardown_spec_witness :
    (exitFromStage FallbackStage.completed
      { capOpen := true, audioFile := true, tempFrame := false,
        capReleaseCount := 0, audioRemoveCount := 0 }).tempFrame = false ∧
    (exitFromStage FallbackStage.completed
      { capOpen := true, audioFile := true, tempFrame := false,
        capReleaseCount := 0, audioRemoveCount := 0 }).capReleaseCount = 0 + 1 ∧
    (exitFromStage FallbackStage.completed
      { capOpen := true, audioFile := true, tempFrame := false,
        capReleaseCount := 0, audioRemoveCount := 0 }).audioRemoveCount = 0 + 1 :=
  ⟨(teardown_spec FallbackStage.completed
      { capOpen := true, audioFile := true, tempFrame := false,
        capReleaseCount := 0, audioRemoveCount := 0 }).2.2.2.2.2.1 rfl,
   (teardown_spec FallbackStage.completed
      { capOpen := true, audioFile := true, tempFrame := false,
        capReleaseCount := 0, audioRemoveCount := 0 }).2.1,
   (teardown_spec FallbackStage.completed
      { capOpen := true, audioFile := true, tempFrame := false,
        capReleaseCount := 0, audioRemoveCount := 0 }).2.2.2.1 rfl⟩

/-- Claim C8: every audio-stage failure is absorbed locally.  Whatever the
audio environment, once the capture opens the pacing loop is entered, and
the loop (driven only by the frame source) always runs to end of stream;
failure of both the MP3 and the WAV extraction, a missing extracted file,
an empty one, or an unreadable one each yield `audioPath = none` — video
proceeds without audio — and a playback-start failure merely leaves
playback unstarted.  No audio failure is escalated. -/
theorem audio_failures_absorbed (e : AudioEnv) :
    (startSession e true).loopEntered = true ∧
    (e.mp3Ok = false → e.wavOk = false → (startSession e true).audioPath = none) ∧
    (e.fileExists = false → (startSession e true).audioPath = none) ∧
    (e.fileSize = 0 → (startSession e true).audioPath = none) ∧
    (e.readable = false → (startSession e true).audioPath = none) ∧
    (e.playOk = false → (startSession e true).audioStarted = false) ∧
    ∀ (ds : Nat → ℚ) (s : LoopState), (run ds s).frames = [] := by
  refine ⟨by simp [startSession], ?_, ?_, ?_, ?_, ?_, fun ds s => run_frames_nil ds s⟩
  · intro h1 h2
    simp [startSession, prepareAudio, extractAudio, h1, h2, ite_self]
  · intro h
    rcases hx : extractAudio e with _ | k <;>
      simp [startSession, prepareAudio, hx, h, ite_self]
  · intro h
    rcases hx : extractAudio e with _ | k <;>
      simp [startSession, prepareAudio, hx, h, ite_self]
  · intro h
    rcases hx : extractAudio e with _ | k <;>
      simp [startSession, prepareAudio, hx, h, ite_self]
  · intro h
    simp [startSession, h]

/-- Witness for C8: with both extractions failing and playback broken,
the loop is still entered with no audio artifact and no playback, and a
concrete run still drains its source. -/
theorem audio_failures_absorbed_witness :
    (startSession brokenAudio true).loopEntered = true ∧
    (startSession brokenAudio true).audioPath = none ∧
    (startSession brokenAudio true).audioStarted = false ∧
    (run (fun _ => 0) silentSource).frames = [] := by
  have h := audio_failures_absorbed brokenAudio
  exact ⟨h.1, h.2.1 rfl rfl, h.2.2.2.2.2.1 rfl, h.2.2.2.2.2.2 (fun _ => 0) silentSource⟩

/-- Claim C9: the CLI accepts exactly one positional argument, the video
path (any other argument count is a usage error that exits with the
non-zero status 1); the conversion function's optional column-width
parameter defaults to 80; and every displayed frame is rendered at
`min(columns, 100)` columns, so the display width never exceeds 100. -/
theorem cli_surface_spec (prog path : String) (argv : List String)
    (columns argvLen : Nat) (e : CliEnv) :
    parseArgs [prog, path] = some path ∧
    (argv.length ≠ 2 → parseArgs argv = none) ∧
    defaultColumns = 80 ∧
    displayColumns columns = min columns 100 ∧
    displayColumns columns ≤ 100 ∧
    displayColumns defaultColumns = 80 ∧
    (argvLen ≠ 2 → processExitCode argvLen e = 1 ∧ processExitCode argvLen e ≠ 0) := by
  refine ⟨by simp [parseArgs], ?_, rfl, rfl, min_le_right _ _, by decide, ?_⟩
  · intro h
    simp [parseArgs, h]
  · intro h
    have h1 : processExitCode argvLen e = 1 := by simp [processExitCode, h]
    exact ⟨h1, by rw [h1]; decide⟩

/-- Witness for C9: a correct invocation parses to the path, an extra
column-width argument is rejected as a usage error, the default width is
80 and its display width is 80, and three arguments exit with status 1. -/
theorem cli_surface_spec_witness :
    parseArgs ["acvp.py", "peak.mp4"] = some "peak.mp4" ∧
    parseArgs ["acvp.py", "peak.mp4", "100"] = none ∧
    displayColumns defaultColumns = 80 ∧
    processExitCode 3 { openOk := true, interrupted := false, faulted := false } = 1 := by
  have h := cli_surface_spec "acvp.py" "peak.mp4" ["acvp.py", "peak.mp4", "100"] 80 3
    { openOk := true, interrupted := false, faulted := false }
  exact ⟨h.1, h.2.1 (by decide), h.2.2.2.2.2.1, (h.2.2.2.2.2.2 (by decide)).1⟩

/-- Claim C10: a frame wider than 640 pixels is downscaled by the uniform
factor `640 / width`: the new width is exactly 640 (so never more than
640) and the new height is the same factor applied to the height and
truncated — aspect ratio preserved up to integer truncation; a frame of
width at most 640 passes through unresized, and in every case the
resulting width is at most 640. -/
theorem resizeFrame_bounds (w h : Nat) :
    (640 < w →
      (resizeFrame w h).1 = 640 ∧
      (resizeFrame w h).2 = (⌊(h : ℚ) * (640 / (w : ℚ))⌋).toNat) ∧
    (w ≤ 640 → resizeFrame w h = (w, h)) ∧
    (resizeFrame w h).1 ≤ 640 := by
  by_cases hw : 640 < w
  · have hw0 : (w : ℚ) ≠ 0 := Nat.cast_ne_zero.mpr (by omega)
    have hwidth : (resizeFrame w h).1 = 640 := by
      simp only [resizeFrame, if_pos hw]
      rw [mul_comm, div_mul_cancel₀ _ hw0]
      norm_num [Int.floor_ofNat]
      decide
    refine ⟨fun _ => ⟨hwidth, ?_⟩, fun hle => absurd hle (not_le.mpr hw), by omega⟩
    simp only [resizeFrame, if_pos hw]
  · refine ⟨fun h640 => absurd h640 hw, fun _ => ?_, ?_⟩
    · simp [resizeFrame, hw]
    · simp only [resizeFrame, if_neg hw]
      omega

/-- Witness for C10: a 1280x720 frame is halved to 640x360; a 640x480
frame passes through unchanged. -/
theorem resizeFrame_bounds_witness :
    resizeFrame 1280 720 = (640, 360) ∧ resizeFrame 640 480 = (640, 480) := by
  have h1 := (resizeFrame_bounds 1280 720).1 (by norm_num)
  have h2 := (resizeFrame_bounds 640 480).2.1 (by norm_num)
  refine ⟨?_, h2⟩
  have hh : (⌊(720 : ℚ) * (640 / (1280 : ℚ))⌋).toNat = 360 := by
    norm_num [Int.floor_ofNat]
    decide
  exact Prod.ext_iff.mpr ⟨h1.1, h1.2.trans hh⟩

end Acvp
